import Mathlib

/-!
Verification of `src/packages/voice-stt/main.py` (voice-to-text service).

The module's only logic is the transcription orchestrator `transcribe`
(temp-file persistence, ffmpeg conversion subprocess, ASR model
invocation, `finally` cleanup), a `warmup` trigger, an HTTP adapter
`transcribe_http`, and a CLI entry point `main`.

Shallow embedding choices:
  * the container filesystem is an association list from path strings to
    byte lists (bytes as `List Nat`);
  * the external collaborators (the name picked by
    `tempfile.NamedTemporaryFile(suffix=".input")`, the behaviour of the
    `ffmpeg` subprocess, `ASRModel.from_pretrained`, and
    `model.transcribe`) are an environment record `Env` of pure
    functions — the code treats them as black boxes;
  * Python exceptions are an explicit `Except PyError` value;
  * which external effects a call performed is recorded as a trace of
    `Event`s.
-/

namespace VoiceStt

/-- A filesystem: association list from paths to file contents (bytes). -/
abbrev FS : Type := List (String × List Nat)

/-- `os.path.exists` / reading a file: first binding for the path. -/
def fsRead (fs : FS) (p : String) : Option (List Nat) :=
  (List.find? (fun kv => kv.1 == p) fs).map (fun kv => kv.2)

/-- Remove every binding for a path. -/
def fsRemove (fs : FS) (p : String) : FS :=
  List.filter (fun kv => kv.1 != p) fs

/-- Writing a file: overwrite any previous binding for the path. -/
def fsWrite (fs : FS) (p : String) (c : List Nat) : FS :=
  (p, c) :: fsRemove fs p

/-- `os.path.exists`. -/
def fsExists (fs : FS) (p : String) : Bool :=
  (fsRead fs p).isSome

/-- Python exceptions that the module can raise. -/
inductive PyError where
  | calledProcessError (returncode : Nat)
  | modelError (msg : String)
  | fileNotFoundError (path : String)
deriving DecidableEq, Repr

/-- `os.unlink`: raises `FileNotFoundError` when the path is absent. -/
def osUnlink (fs : FS) (p : String) : Except PyError FS :=
  if fsExists fs p then .ok (fsRemove fs p)
  else .error (.fileNotFoundError p)

/-- One guarded deletion from the `finally` block:
`if os.path.exists(p): os.unlink(p)`.  Returns the new filesystem and
the exception `os.unlink` raised, if any. -/
def unlinkIfExists (fs : FS) (p : String) : FS × Option PyError :=
  if fsExists fs p then
    match osUnlink fs p with
    | .ok fs' => (fs', none)
    | .error e => (fs, some e)
  else (fs, none)

/-- The whole `finally` block of `transcribe` (lines 94–99): delete the
input temp file if it exists, then the wav file if it exists.  An
exception from the first deletion aborts the block. -/
def cleanupStep (fs : FS) (input_path wav_path : String) : FS × Option PyError :=
  match unlinkIfExists fs input_path with
  | (fs1, some e) => (fs1, some e)
  | (fs1, none) => unlinkIfExists fs1 wav_path

/-- Result record of `transcribe`: `{"text": ..., "language": ...}`. -/
structure TranscriptionResult where
  text : String
  language : String
deriving DecidableEq, Repr

/-- Outcome of one run of the `ffmpeg` subprocess: its exit code, and
the bytes it wrote to the output path (if it wrote the file at all). -/
structure FfmpegRun where
  returncode : Nat
  output : Option (List Nat)
deriving DecidableEq, Repr

/-- External collaborators of the module, as pure functions.  `tmpPath`
is the (fresh) name `tempfile.NamedTemporaryFile(suffix=".input")`
returns for a given filesystem — it already carries the `".input"`
suffix.  `ffmpeg` maps input-file bytes to a subprocess outcome,
`loadModel` is the outcome of `ASRModel.from_pretrained`, and `asr`
maps wav-file bytes to the list of transcripts `model.transcribe`
returns (or a raised failure). -/
structure Env where
  tmpPath : FS → String
  ffmpeg : List Nat → FfmpegRun
  loadModel : Except String Unit
  asr : List Nat → Except String (List String)

/-- External effects a call can perform, for the trace. -/
inductive Event where
  | ffmpegRun
  | modelLoad
  | modelTranscribe
deriving DecidableEq, Repr

/-- Result, final filesystem and event trace of one `transcribe` call. -/
structure Outcome where
  result : Except PyError TranscriptionResult
  fs : FS
  trace : List Event

/-- `transcriptions[0] if transcriptions else ""` (line 90). -/
def firstOrEmpty (transcriptions : List String) : String :=
  match transcriptions with
  | [] => ""
  | t :: _ => t

/-- Python's `str.replace` on character lists: replace every
non-overlapping occurrence of `pat`, scanning left to right.  The
first argument is fuel (the string length suffices), which keeps the
recursion structural. -/
def replaceAux (pat rep : List Char) : Nat → List Char → List Char
  | 0, s => s
  | _ + 1, [] => []
  | fuel + 1, c :: rest =>
    if !pat.isEmpty && List.isPrefixOf pat (c :: rest) then
      rep ++ replaceAux pat rep fuel (List.drop (pat.length - 1) rest)
    else
      c :: replaceAux pat rep fuel rest

/-- Python's `str.replace(pat, rep)` for a non-empty `pat` (the module
only uses it with `pat = ".input"`). -/
def strReplace (s pat rep : String) : String :=
  ⟨replaceAux pat.data rep.data s.data.length s.data⟩

/-- The input temp path of a call: the name `NamedTemporaryFile` picks. -/
def inputPathOf (env : Env) (fs : FS) : String :=
  env.tmpPath fs

/-- `wav_path = input_path.replace(".input", ".wav")` (line 62). -/
def wavPathOf (env : Env) (fs : FS) : String :=
  strReplace (inputPathOf env fs) ".input" ".wav"

/-- Filesystem after `input_file.write(audio_bytes)` (lines 58–60). -/
def fs1Of (env : Env) (fs : FS) (audio_bytes : List Nat) : FS :=
  fsWrite fs (inputPathOf env fs) audio_bytes

/-- The `ffmpeg` subprocess run (lines 66–80): the converter reads the
bytes of the file at `input_path`. -/
def runOf (env : Env) (fs : FS) (audio_bytes : List Nat) : FfmpegRun :=
  env.ffmpeg ((fsRead (fs1Of env fs audio_bytes) (inputPathOf env fs)).getD [])

/-- Filesystem after the `ffmpeg` run: the converter wrote the wav file
iff its outcome carries output bytes (it may have written output even
when exiting non-zero). -/
def fs2Of (env : Env) (fs : FS) (audio_bytes : List Nat) : FS :=
  match (runOf env fs audio_bytes).output with
  | some w => fsWrite (fs1Of env fs audio_bytes) (wavPathOf env fs) w
  | none => fs1Of env fs audio_bytes

/-- Bytes of the file `model.transcribe([wav_path])` reads (line 89). -/
def wavBytesOf (env : Env) (fs : FS) (audio_bytes : List Nat) : List Nat :=
  (fsRead (fs2Of env fs audio_bytes) (wavPathOf env fs)).getD []

/-- The `try` block of `transcribe` (lines 64–92): raise
`CalledProcessError` if `ffmpeg` exited non-zero (`check=True`), else
load the model (`from_pretrained` may raise), else call
`model.transcribe` and return `{"text": transcriptions[0] or "",
"language": language}`.  Paired with the trace of external effects the
block performed. -/
def transcribeTry (env : Env) (fs : FS) (audio_bytes : List Nat)
    (language : String) : Except PyError TranscriptionResult × List Event :=
  if (runOf env fs audio_bytes).returncode ≠ 0 then
    (.error (.calledProcessError (runOf env fs audio_bytes).returncode),
     [.ffmpegRun])
  else
    match env.loadModel with
    | .error e => (.error (.modelError e), [.ffmpegRun, .modelLoad])
    | .ok _ =>
      match env.asr (wavBytesOf env fs audio_bytes) with
      | .error e =>
          (.error (.modelError e), [.ffmpegRun, .modelLoad, .modelTranscribe])
      | .ok transcriptions =>
          (.ok ⟨firstOrEmpty transcriptions, language⟩,
           [.ffmpegRun, .modelLoad, .modelTranscribe])

/-- The transcription orchestrator `transcribe` (lines 41–99).

Write `audio_bytes` to a fresh temp file; derive `wav_path`; run the
`try` block (`transcribeTry`); then run the `finally` block
(`cleanupStep`) on the filesystem the `try` block left behind.  An
exception raised by the cleanup itself would replace the in-flight
result, exactly as a Python `finally` does. -/
def transcribe (env : Env) (fs : FS) (audio_bytes : List Nat)
    (language : String := "en") : Outcome :=
  let step := transcribeTry env fs audio_bytes language
  match cleanupStep (fs2Of env fs audio_bytes) (inputPathOf env fs)
      (wavPathOf env fs) with
  | (fs3, some e) => ⟨.error e, fs3, step.2⟩
  | (fs3, none) => ⟨step.1, fs3, step.2⟩

/-- Result record of `warmup`. -/
structure WarmupResult where
  status : String
  model : String
deriving DecidableEq, Repr

/-- Container state seen by `warmup`: the filesystem and whether the
model is resident in accelerator memory. -/
structure GState where
  fs : FS
  modelResident : Bool

/-- The `warmup` function (lines 110–123): load the model into GPU
memory and return `{"status": "warm", "model": "parakeet-tdt-0.6b-v2"}`.
It performs no file operations. -/
def warmup (env : Env) (s : GState) : Except PyError WarmupResult × GState :=
  match env.loadModel with
  | .error e => (.error (.modelError e), s)
  | .ok _ => (.ok ⟨"warm", "parakeet-tdt-0.6b-v2"⟩, ⟨s.fs, true⟩)

/-- Iterate the state effect of `warmup` `n` times. -/
def warmupN (env : Env) : Nat → GState → GState
  | 0, s => s
  | n + 1, s => warmupN env n (warmup env s).2

/-- The HTTP adapter `transcribe_http` (lines 135–141): delegates to
`transcribe.local(audio)` with the default language. -/
def transcribe_http (env : Env) (fs : FS) (audio : List Nat) : Outcome :=
  transcribe env fs audio

/-- How Python prints the `warmup` result dict in
`print(f"Warmup result: {result}")`. -/
def warmupRepr (r : WarmupResult) : String :=
  "\x7b'status': '" ++ r.status ++ "', 'model': '" ++ r.model ++ "'\x7d"

/-- The CLI entry point `main` (lines 144–163).

If an audio file path argument is present (`len(sys.argv) > 1`), print
`Transcribing: <file>`, read the file's bytes from the local
filesystem (a missing file raises), invoke `transcribe.remote` on them
with the default language, and print `Transcription: <text>`.
Otherwise print the usage lines, invoke `warmup.remote`, and print
`Warmup result: <result>`.  Returns the printed stdout lines and
whether an exception propagated. -/
def main (env : Env) (localFs : FS) (remote : GState) (argv : List String) :
    List String × Except PyError Unit :=
  if argv.length > 1 then
    match fsRead localFs (argv.getD 1 "") with
    | none =>
        (["Transcribing: " ++ argv.getD 1 ""],
         .error (.fileNotFoundError (argv.getD 1 "")))
    | some audio_bytes =>
      match (transcribe env remote.fs audio_bytes).result with
      | .error e => (["Transcribing: " ++ argv.getD 1 ""], .error e)
      | .ok result =>
          (["Transcribing: " ++ argv.getD 1 "",
            "Transcription: " ++ result.text], .ok ())
  else
    match (warmup env remote).1 with
    | .error e =>
        (["Usage: modal run main.py -- <audio_file>",
          "No audio file provided, running warmup only..."], .error e)
    | .ok result =>
        (["Usage: modal run main.py -- <audio_file>",
          "No audio file provided, running warmup only...",
          "Warmup result: " ++ warmupRepr result], .ok ())

/-- Equality of `Except` values is decidable (needed to evaluate the
embedding on concrete inputs). -/
instance {ε α : Type} [DecidableEq ε] [DecidableEq α] :
    DecidableEq (Except ε α) := fun a b =>
  match a, b with
  | .error x, .error y =>
      if h : x = y then isTrue (by rw [h])
      else isFalse (by intro hc; injection hc; contradiction)
  | .ok x, .ok y =>
      if h : x = y then isTrue (by rw [h])
      else isFalse (by intro hc; injection hc; contradiction)
  | .error _, .ok _ => isFalse (by intro hc; cases hc)
  | .ok _, .error _ => isFalse (by intro hc; cases hc)

/-- Concrete environment where every external collaborator succeeds:
`ffmpeg` exits 0 writing wav bytes `[1, 2]`, the model loads, and
`model.transcribe` returns one transcript `"hello"`. -/
def envOk : Env :=
  ⟨fun _ => "t.input", fun _ => ⟨0, some [1, 2]⟩, .ok (), fun _ => .ok ["hello"]⟩

/-- Concrete environment where `ffmpeg` exits 1 on an empty (zero-byte)
input file and writes no output; everything else succeeds. -/
def envFail : Env :=
  ⟨fun _ => "t.input", fun b => ⟨if b.isEmpty then 1 else 0, some [1, 2]⟩,
   .ok (), fun _ => .ok ["hello"]⟩

/-- Concrete environment where the model returns zero transcripts. -/
def envEmpty : Env :=
  ⟨fun _ => "t.input", fun _ => ⟨0, some [9]⟩, .ok (), fun _ => .ok []⟩

/-! ### Filesystem lemmas -/

theorem fsRead_cons (kv : String × List Nat) (t : FS) (p : String) :
    fsRead (kv :: t) p = if kv.1 = p then some kv.2 else fsRead t p := by
  by_cases h : kv.1 = p <;> simp [fsRead, List.find?_cons, h]

theorem fsRemove_cons (kv : String × List Nat) (t : FS) (p : String) :
    fsRemove (kv :: t) p =
      if kv.1 = p then fsRemove t p else kv :: fsRemove t p := by
  by_cases h : kv.1 = p <;> simp [fsRemove, List.filter_cons, h]

theorem fsRead_fsWrite_self (fs : FS) (p : String) (c : List Nat) :
    fsRead (fsWrite fs p c) p = some c := by
  simp [fsWrite, fsRead_cons]

theorem fsRead_fsRemove_self (fs : FS) (p : String) :
    fsRead (fsRemove fs p) p = none := by
  induction fs with
  | nil => rfl
  | cons kv t ih =>
    rw [fsRemove_cons]
    by_cases h : kv.1 = p
    · simpa [h] using ih
    · simpa [h, fsRead_cons] using ih

theorem fsRead_fsRemove_ne (fs : FS) {p q : String} (h : q ≠ p) :
    fsRead (fsRemove fs p) q = fsRead fs q := by
  induction fs with
  | nil => rfl
  | cons kv t ih =>
    rw [fsRemove_cons]
    by_cases hk : kv.1 = p
    · have hq : ¬kv.1 = q := by rw [hk]; exact fun hc => h hc.symm
      rw [if_pos hk, fsRead_cons, if_neg hq]
      exact ih
    · rw [if_neg hk, fsRead_cons, fsRead_cons]
      by_cases hq : kv.1 = q
      · rw [if_pos hq, if_pos hq]
      · rw [if_neg hq, if_neg hq]
        exact ih

theorem fsRead_fsWrite_ne (fs : FS) {p q : String} (c : List Nat)
    (h : q ≠ p) : fsRead (fsWrite fs p c) q = fsRead fs q := by
  rw [fsWrite, fsRead_cons, if_neg (fun hc => h hc.symm)]
  exact fsRead_fsRemove_ne fs h

theorem fsRemove_of_read_none (fs : FS) (p : String)
    (h : fsRead fs p = none) : fsRemove fs p = fs := by
  induction fs with
  | nil => rfl
  | cons kv t ih =>
    rw [fsRead_cons] at h
    by_cases hk : kv.1 = p
    · simp [hk] at h
    · rw [if_neg hk] at h
      rw [fsRemove_cons, if_neg hk, ih h]

/-! ### Normal forms of the cleanup block and the orchestrator steps -/

theorem unlinkIfExists_eq (fs : FS) (p : String) :
    unlinkIfExists fs p = (fsRemove fs p, none) := by
  by_cases h : fsExists fs p = true
  · simp [unlinkIfExists, osUnlink, h]
  · have hr : fsRead fs p = none := by
      rcases hv : fsRead fs p with _ | v
      · rfl
      · exact absurd (by simp [fsExists, hv]) h
    simp [unlinkIfExists, h, fsRemove_of_read_none fs p hr]

theorem cleanupStep_eq (fs : FS) (ip wp : String) :
    cleanupStep fs ip wp = (fsRemove (fsRemove fs ip) wp, none) := by
  simp [cleanupStep, unlinkIfExists_eq]

theorem runOf_eq (env : Env) (fs : FS) (audio_bytes : List Nat) :
    runOf env fs audio_bytes = env.ffmpeg audio_bytes := by
  simp [runOf, fs1Of, fsRead_fsWrite_self]

theorem wavBytesOf_eq (env : Env) (fs : FS) (audio_bytes : List Nat)
    (hne : wavPathOf env fs ≠ inputPathOf env fs)
    (hfresh : fsRead fs (wavPathOf env fs) = none) :
    wavBytesOf env fs audio_bytes = ((env.ffmpeg audio_bytes).output).getD [] := by
  unfold wavBytesOf fs2Of
  rw [runOf_eq]
  rcases h : (env.ffmpeg audio_bytes).output with _ | w
  · simp [fs1Of, fsRead_fsWrite_ne _ _ hne, hfresh]
  · simp [fsRead_fsWrite_self]

theorem transcribe_result_eq_try (env : Env) (fs : FS) (audio_bytes : List Nat)
    (language : String) :
    (transcribe env fs audio_bytes language).result =
      (transcribeTry env fs audio_bytes language).1 := by
  simp [transcribe, cleanupStep_eq]

theorem transcribe_fs_eq (env : Env) (fs : FS) (audio_bytes : List Nat)
    (language : String) :
    (transcribe env fs audio_bytes language).fs =
      fsRemove (fsRemove (fs2Of env fs audio_bytes) (inputPathOf env fs))
        (wavPathOf env fs) := by
  simp [transcribe, cleanupStep_eq]

theorem transcribe_trace_eq (env : Env) (fs : FS) (audio_bytes : List Nat)
    (language : String) :
    (transcribe env fs audio_bytes language).trace =
      (transcribeTry env fs audio_bytes language).2 := by
  simp [transcribe, cleanupStep_eq]

theorem warmup_fs (env : Env) (s : GState) : (warmup env s).2.fs = s.fs := by
  unfold warmup
  rcases env.loadModel with e | u <;> rfl

theorem warmupN_fs (env : Env) (n : Nat) (s : GState) :
    (warmupN env n s).fs = s.fs := by
  induction n generalizing s with
  | zero => rfl
  | succ n ih => rw [warmupN, ih, warmup_fs]

/-- The text of the result (and the error, if any) depends only on the
environment, the audio bytes and the language — not on the filesystem
the call starts from — provided the temp names are fresh. -/
theorem transcribe_text_fs_irrel (env : Env) (fs fs' : FS)
    (audio_bytes : List Nat) (language : String)
    (ha : wavPathOf env fs ≠ inputPathOf env fs)
    (hb : fsRead fs (wavPathOf env fs) = none)
    (ha' : wavPathOf env fs' ≠ inputPathOf env fs')
    (hb' : fsRead fs' (wavPathOf env fs') = none) :
    Except.map TranscriptionResult.text
        (transcribe env fs audio_bytes language).result =
      Except.map TranscriptionResult.text
        (transcribe env fs' audio_bytes language).result := by
  rw [transcribe_result_eq_try, transcribe_result_eq_try]
  unfold transcribeTry
  rw [runOf_eq, runOf_eq, wavBytesOf_eq env fs audio_bytes ha hb,
      wavBytesOf_eq env fs' audio_bytes ha' hb']

/-! ### Claims -/

/-- C1: for every audio byte input and language code, `transcribe`
leaves neither the input temp file nor the converted wav file on disk
after it returns, on every exit path (the `finally` block removes both
whether the `try` block produced a result or raised). -/
theorem transcribe_leaves_no_temp_files (env : Env) (fs : FS)
    (audio_bytes : List Nat) (language : String) :
    fsRead (transcribe env fs audio_bytes language).fs (inputPathOf env fs)
        = none ∧
    fsRead (transcribe env fs audio_bytes language).fs (wavPathOf env fs)
        = none := by
  rw [transcribe_fs_eq]
  constructor
  · by_cases h : inputPathOf env fs = wavPathOf env fs
    · rw [h]
      exact fsRead_fsRemove_self _ _
    · rw [fsRead_fsRemove_ne _ h]
      exact fsRead_fsRemove_self _ _
  · exact fsRead_fsRemove_self _ _

/-- C2: whenever the `ffmpeg` subprocess exits non-zero (as it does on
a zero-byte payload), `transcribe` raises `CalledProcessError`
(conversion failure) and the model is neither loaded nor invoked in
that call. -/
theorem conversion_failure_no_model (env : Env) (fs : FS)
    (audio_bytes : List Nat) (language : String)
    (h : (env.ffmpeg audio_bytes).returncode ≠ 0) :
    (transcribe env fs audio_bytes language).result =
      .error (.calledProcessError (env.ffmpeg audio_bytes).returncode) ∧
    Event.modelLoad ∉ (transcribe env fs audio_bytes language).trace ∧
    Event.modelTranscribe ∉ (transcribe env fs audio_bytes language).trace := by
  have htry : transcribeTry env fs audio_bytes language =
      (.error (.calledProcessError (env.ffmpeg audio_bytes).returncode),
       [.ffmpegRun]) := by
    unfold transcribeTry
    rw [runOf_eq, if_pos h]
  rw [transcribe_result_eq_try, transcribe_trace_eq, htry]
  exact ⟨rfl, by simp, by simp⟩

/-- C2 witness: `envFail`'s converter exits 1 on the zero-byte payload;
the call fails with a conversion error and the trace shows no model
load and no model invocation. -/
theorem conversion_failure_no_model_witness :
    (transcribe envFail [] [] "en").result = .error (.calledProcessError 1) ∧
    Event.modelLoad ∉ (transcribe envFail [] [] "en").trace ∧
    Event.modelTranscribe ∉ (transcribe envFail [] [] "en").trace :=
  conversion_failure_no_model envFail [] [] "en" (by decide)

/-- C3: when the model invocation returns zero transcript segments
`transcribe` returns `{"text": "", "language": language}` without
raising; when it returns at least one segment, the text field is the
first returned transcript. -/
theorem empty_transcription_is_empty_text (env : Env) (fs : FS)
    (audio_bytes : List Nat) (language : String) (ts : List String)
    (h0 : (env.ffmpeg audio_bytes).returncode = 0)
    (hload : env.loadModel = .ok ())
    (hasr : env.asr (wavBytesOf env fs audio_bytes) = .ok ts) :
    (transcribe env fs audio_bytes language).result =
      .ok ⟨firstOrEmpty ts, language⟩ ∧
    (ts = [] →
      (transcribe env fs audio_bytes language).result = .ok ⟨"", language⟩) ∧
    (∀ t rest, ts = t :: rest →
      (transcribe env fs audio_bytes language).result = .ok ⟨t, language⟩) := by
  have hmain : (transcribe env fs audio_bytes language).result =
      .ok ⟨firstOrEmpty ts, language⟩ := by
    rw [transcribe_result_eq_try]
    unfold transcribeTry
    rw [runOf_eq, if_neg (fun hc => hc h0)]
    simp only [hload, hasr]
  refine ⟨hmain, fun hts => ?_, fun t rest hts => ?_⟩
  · rw [hts] at hmain
    exact hmain
  · rw [hts] at hmain
    exact hmain

/-- C3 witness: with a model returning zero segments the result is
`{"text": "", "language": "en"}`; with one segment `"hello"` the text
is `"hello"`. -/
theorem empty_transcription_witness :
    (transcribe envEmpty [] [2] "en").result = .ok ⟨"", "en"⟩ ∧
    (transcribe envOk [] [5] "en").result = .ok ⟨"hello", "en"⟩ := by
  constructor
  · exact (empty_transcription_is_empty_text envEmpty [] [2] "en" []
      (by decide) (by decide) (by decide)).2.1 rfl
  · exact (empty_transcription_is_empty_text envOk [] [5] "en" ["hello"]
      (by decide) (by decide) (by decide)).2.2 "hello" [] rfl

/-- C4: a successful `transcribe` call returns a record with exactly
the fields `text` and `language` (the type `TranscriptionResult` has
exactly these two fields), the `language` field echoes the language
code passed in, and the language code defaults to `"en"` when
omitted. -/
theorem transcribe_result_fields (env : Env) (fs : FS)
    (audio_bytes : List Nat) (language : String) :
    transcribe env fs audio_bytes = transcribe env fs audio_bytes "en" ∧
    ∀ r, (transcribe env fs audio_bytes language).result = .ok r →
      r.language = language := by
  refine ⟨rfl, fun r h => ?_⟩
  rw [transcribe_result_eq_try] at h
  unfold transcribeTry at h
  split at h
  · simp at h
  · split at h
    · simp at h
    · split at h
      · simp at h
      · have hr := Except.ok.inj h
        rw [← hr]

/-- C4 witness: applying the field property at a concrete successful
call with language `"fr"`. -/
theorem transcribe_result_fields_witness :
    TranscriptionResult.language ⟨"hello", "fr"⟩ = "fr" :=
  (transcribe_result_fields envOk [] [5] "fr").2 ⟨"hello", "fr"⟩ (by decide)

/-- C5: the HTTP adapter returns exactly the result of invoking the
orchestrator directly on the request body with the default language
code: `transcribe_http(audio) = transcribe(audio, "en")`. -/
theorem transcribe_http_eq_transcribe_default (env : Env) (fs : FS)
    (audio : List Nat) :
    transcribe_http env fs audio = transcribe env fs audio "en" := rfl

/-- C6: two sequential `transcribe` invocations on the same bytes and
language code return results with the same text field, provided the
temp names picked in each run are genuinely fresh (the
`NamedTemporaryFile` guarantee): the transcription is a deterministic
function of its inputs. -/
theorem transcribe_deterministic (env : Env) (fs : FS)
    (audio_bytes : List Nat) (language : String)
    (h1 : wavPathOf env fs ≠ inputPathOf env fs)
    (h2 : fsRead fs (wavPathOf env fs) = none)
    (h3 : wavPathOf env (transcribe env fs audio_bytes language).fs ≠
      inputPathOf env (transcribe env fs audio_bytes language).fs)
    (h4 : fsRead (transcribe env fs audio_bytes language).fs
      (wavPathOf env (transcribe env fs audio_bytes language).fs) = none) :
    Except.map TranscriptionResult.text
        (transcribe env (transcribe env fs audio_bytes language).fs
          audio_bytes language).result =
      Except.map TranscriptionResult.text
        (transcribe env fs audio_bytes language).result :=
  transcribe_text_fs_irrel env _ fs audio_bytes language h3 h4 h1 h2

/-- C6 witness: two sequential runs in the `envOk` environment starting
from the empty filesystem produce the same text. -/
theorem transcribe_deterministic_witness :
    Except.map TranscriptionResult.text
        (transcribe envOk (transcribe envOk [] [5] "en").fs [5] "en").result =
      Except.map TranscriptionResult.text (transcribe envOk [] [5] "en").result :=
  transcribe_deterministic envOk [] [5] "en" (by decide) (by decide)
    (by decide) (by decide)

/-- C7: any number of `warmup` calls before a transcription never
changes the transcription outcome: `warmup` performs no file
operation, and `transcribe` does not read the model-residency state,
so the orchestrator's result after `n` warmups equals its result with
none. -/
theorem warmup_preserves_transcription (env : Env) (n : Nat) (s : GState)
    (audio_bytes : List Nat) (language : String) :
    transcribe env (warmupN env n s).fs audio_bytes language =
      transcribe env s.fs audio_bytes language := by
  rw [warmupN_fs]

/-- C8: with an audio file path argument, `main` reads that file's
bytes, invokes `transcribe` on them (default language), and prints the
transcription text; with no argument it invokes `warmup` and prints
the warmup status. -/
theorem main_cli_behavior (env : Env) (localFs : FS) (remote : GState)
    (argv : List String) :
    (∀ audio_file audio_bytes r,
        argv.length > 1 →
        argv.getD 1 "" = audio_file →
        fsRead localFs audio_file = some audio_bytes →
        (transcribe env remote.fs audio_bytes).result = .ok r →
        main env localFs remote argv =
          (["Transcribing: " ++ audio_file, "Transcription: " ++ r.text],
           .ok ())) ∧
    (∀ w, argv.length ≤ 1 →
        (warmup env remote).1 = .ok w →
        main env localFs remote argv =
          (["Usage: modal run main.py -- <audio_file>",
            "No audio file provided, running warmup only...",
            "Warmup result: " ++ warmupRepr w], .ok ())) := by
  constructor
  · intro audio_file audio_bytes r hlen harg hread hres
    unfold main
    rw [if_pos hlen, harg]
    simp only [hread, hres]
  · intro w hle hw
    unfold main
    rw [if_neg (by omega)]
    simp only [hw]

/-- C8 witness: a run with a readable audio file prints the
transcription; a run with no file argument prints the warmup status. -/
theorem main_cli_behavior_witness :
    main envOk [("a.wav", [1, 2])] ⟨[], false⟩ ["main.py", "a.wav"] =
      (["Transcribing: a.wav", "Transcription: hello"], .ok ()) ∧
    main envOk [] ⟨[], false⟩ ["main.py"] =
      (["Usage: modal run main.py -- <audio_file>",
        "No audio file provided, running warmup only...",
        "Warmup result: " ++ warmupRepr ⟨"warm", "parakeet-tdt-0.6b-v2"⟩],
       .ok ()) := by
  constructor
  · exact (main_cli_behavior envOk [("a.wav", [1, 2])] ⟨[], false⟩
      ["main.py", "a.wav"]).1 "a.wav" [1, 2] ⟨"hello", "en"⟩ (by decide)
      (by decide) (by decide) (by decide)
  · exact (main_cli_behavior envOk [] ⟨[], false⟩ ["main.py"]).2
      ⟨"warm", "parakeet-tdt-0.6b-v2"⟩ (by decide) (by decide)

/-- C9: the language argument is never passed to the conversion step or
the model invocation, so for any two language codes the text field of
the result, the final filesystem and the event trace are all the same —
the language influences only the echoed `language` field. -/
theorem language_noninterference (env : Env) (fs : FS)
    (audio_bytes : List Nat) (L1 L2 : String) :
    Except.map TranscriptionResult.text
        (transcribe env fs audio_bytes L1).result =
      Except.map TranscriptionResult.text
        (transcribe env fs audio_bytes L2).result ∧
    (transcribe env fs audio_bytes L1).fs =
      (transcribe env fs audio_bytes L2).fs ∧
    (transcribe env fs audio_bytes L1).trace =
      (transcribe env fs audio_bytes L2).trace := by
  refine ⟨?_, ?_, ?_⟩
  · rw [transcribe_result_eq_try, transcribe_result_eq_try]
    unfold transcribeTry
    split
    · rfl
    · split
      · rfl
      · split <;> rfl
  · rw [transcribe_fs_eq, transcribe_fs_eq]
  · rw [transcribe_trace_eq, transcribe_trace_eq]
    unfold transcribeTry
    split
    · rfl
    · split
      · rfl
      · split <;> rfl

/-- C10: the cleanup in the `finally` block deletes each temp path only
after checking it exists, so it never raises a missing-file error and
never masks the in-flight conversion or model failure: the cleanup
block always completes without an exception, and `transcribe`'s result
is always exactly the `try` block's result. -/
theorem cleanup_never_raises_missing_file (env : Env) (fs : FS)
    (audio_bytes : List Nat) (language : String) (fs0 : FS)
    (ip wp : String) :
    (cleanupStep fs0 ip wp).2 = none ∧
    (transcribe env fs audio_bytes language).result =
      (transcribeTry env fs audio_bytes language).1 :=
  ⟨by rw [cleanupStep_eq], transcribe_result_eq_try env fs audio_bytes language⟩

end VoiceStt
